import Mathlib

/-!
Verification of the Salesforce → MCP → Neo4j gateway
(`src/gateway/Gateway3App.js`) against its natural-language specification.

The gateway is an Express app with three POST routes (`/method1`,
`/method2`, `/no-rag`).  Each handler composes three outbound
collaborators: the OpenAI chat-completions call inside
`translateToCypher`, the MCP `callTool` invocation, and the
`groundedAnswer` summarizer.  We embed the handlers as pure functions
over oracles that model those collaborators: every oracle returns
`Except String α`, where `Except.error msg` models the awaited call
throwing an exception whose `.message` is `msg`.

JavaScript runtime values that flow through the handlers (tool-result
envelopes, parsed JSON documents, response bodies) are modelled by the
inductive type `JsValue` below, including the distinguished `undef`
value produced by reading an absent property, since the handlers rely
on `||`-truthiness chains and on `res.json` dropping `undefined`
fields.
-/

/-- Model of a JavaScript runtime value as it flows through the gateway
handlers.  `undef` models `undefined` (absent property reads); numbers
are restricted to integers, which covers every value the claims
mention. -/
inductive JsValue where
  | undef : JsValue
  | null : JsValue
  | bool : Bool → JsValue
  | num : Int → JsValue
  | str : String → JsValue
  | arr : List JsValue → JsValue
  | obj : List (String × JsValue) → JsValue

namespace JsValue

/-- JavaScript truthiness: `undefined`, `null`, `false`, `0` and `""`
are falsy; every object and non-empty primitive is truthy. -/
def truthy : JsValue → Bool
  | undef => false
  | null => false
  | bool b => b
  | num n => n != 0
  | str s => s ≠ ""
  | arr _ => true
  | obj _ => true

/-- `true` on every value except `undefined`. -/
def isDefined : JsValue → Bool
  | undef => false
  | _ => true

/-- JavaScript `a || b`: the left operand if truthy, else the right. -/
def jsOr (a b : JsValue) : JsValue :=
  if a.truthy then a else b

/-- Property read `v.k` (also covering the optional-chaining uses
`v?.k` in the handlers): on an object, the first binding for `k`
(or `undefined` when absent); on every other value, `undefined`. -/
def getField (v : JsValue) (k : String) : JsValue :=
  match v with
  | obj l => (l.lookup k).getD undef
  | _ => undef

/-- Element read `v?.[0]` as used on `toolResult.content`: the first
element of an array (or `undefined` when empty); the `"0"` property of
an object; `undefined` otherwise. -/
def index0 (v : JsValue) : JsValue :=
  match v with
  | arr (x :: _) => x
  | obj l => (l.lookup "0").getD undef
  | _ => undef

end JsValue

/-- `res.json` serializes its argument with `JSON.stringify`, which
omits object properties whose value is `undefined`.  We model the
serialized body as the association list with `undef`-valued entries
dropped. -/
def dropUndef (fields : List (String × JsValue)) : List (String × JsValue) :=
  fields.filter (fun kv => kv.2.isDefined)

/-- An HTTP response as produced by either `res.json(...)` (status 200)
or `res.status(500).json({error: err.message})`. -/
structure HttpResponse where
  status : Nat
  body : List (String × JsValue)

/-- The observable outcome of running one request handler: the HTTP
response, the list of MCP tool calls issued (tool name and arguments
object), and how many times the `groundedAnswer` summarizer was
invoked. -/
structure HandlerOut where
  response : HttpResponse
  toolCalls : List (String × JsValue)
  summarizerCalls : Nat

/-- The `catch` block of every route: `res.status(500).json({error:
err.message})`. -/
def errResponse (msg : String) : HttpResponse :=
  { status := 500, body := [("error", JsValue.str msg)] }

section JsonParser

/-- Characters skipped between JSON tokens. -/
def jsonWs (c : Char) : Bool :=
  c = ' ' || c = '\t' || c = '\n' || c = '\r'

/-- Skip inter-token whitespace. -/
def skipWs (l : List Char) : List Char :=
  l.dropWhile jsonWs

/-- Lex a JSON string body (after the opening quote) up to the closing
quote, handling the simple escapes; returns the decoded characters and
the rest of the input.  (`\u` escapes are outside the fragment the
gateway traffic uses and make the parse fail.) -/
def lexString (fuel : Nat) (l : List Char) : Option (List Char × List Char) :=
  match fuel, l with
  | 0, _ => none
  | _, [] => none
  | fuel + 1, c :: rest =>
    if c = '"' then some ([], rest)
    else if c = '\\' then
      match rest with
      | e :: rest' =>
        let decoded : Option Char :=
          if e = '"' then some '"'
          else if e = '\\' then some '\\'
          else if e = '/' then some '/'
          else if e = 'n' then some '\n'
          else if e = 't' then some '\t'
          else if e = 'r' then some '\r'
          else none
        match decoded with
        | some d =>
          match lexString fuel rest' with
          | some (s, r) => some (d :: s, r)
          | none => none
        | none => none
      | [] => none
    else
      match lexString fuel rest with
      | some (s, r) => some (c :: s, r)
      | none => none

/-- Lex a decimal digit run. -/
def lexDigits : List Char → List Char × List Char
  | c :: rest =>
    if c.isDigit then
      let (ds, r) := lexDigits rest
      (c :: ds, r)
    else ([], c :: rest)
  | [] => ([], [])

/-- Digits to a natural number, most significant first. -/
def digitsToNat (ds : List Char) : Nat :=
  ds.foldl (fun acc c => acc * 10 + (c.toNat - '0'.toNat)) 0

mutual

/-- Recursive-descent parser for the JSON fragment exchanged with the
MCP tools (objects, arrays, strings, integers, `true`/`false`/`null`);
models `JSON.parse`, with `none` modelling a thrown `SyntaxError`. -/
def parseValue (fuel : Nat) (l : List Char) : Option (JsValue × List Char) :=
  match fuel with
  | 0 => none
  | fuel + 1 =>
    match skipWs l with
    | [] => none
    | c :: rest =>
      if c = '{' then parseMembers fuel (skipWs rest) true []
      else if c = '[' then parseElements fuel (skipWs rest) true []
      else if c = '"' then
        match lexString (rest.length + 1) rest with
        | some (s, r) => some (JsValue.str (String.mk s), r)
        | none => none
      else if c = 't' then
        match rest with
        | 'r' :: 'u' :: 'e' :: r => some (JsValue.bool true, r)
        | _ => none
      else if c = 'f' then
        match rest with
        | 'a' :: 'l' :: 's' :: 'e' :: r => some (JsValue.bool false, r)
        | _ => none
      else if c = 'n' then
        match rest with
        | 'u' :: 'l' :: 'l' :: r => some (JsValue.null, r)
        | _ => none
      else if c = '-' then
        match lexDigits rest with
        | ([], _) => none
        | (ds, r) => some (JsValue.num (-(digitsToNat ds : Int)), r)
      else if c.isDigit then
        match lexDigits (c :: rest) with
        | ([], _) => none
        | (ds, r) => some (JsValue.num (digitsToNat ds : Int), r)
      else none

/-- Parse the members of an object, `first` marking that no member has
been consumed yet (so `}` closes an empty object). -/
def parseMembers (fuel : Nat) (l : List Char) (first : Bool)
    (acc : List (String × JsValue)) : Option (JsValue × List Char) :=
  match fuel with
  | 0 => none
  | fuel + 1 =>
    match skipWs l with
    | '}' :: r =>
      if first then some (JsValue.obj acc.reverse, r) else none
    | '"' :: rest =>
      match lexString (rest.length + 1) rest with
      | some (k, afterKey) =>
        match skipWs afterKey with
        | ':' :: afterColon =>
          match parseValue fuel afterColon with
          | some (v, afterVal) =>
            let acc' := (String.mk k, v) :: acc
            match skipWs afterVal with
            | ',' :: r => parseMembers fuel r false acc'
            | '}' :: r => some (JsValue.obj acc'.reverse, r)
            | _ => none
          | none => none
        | _ => none
      | none => none
    | _ => none

/-- Parse the elements of an array, `first` marking that no element has
been consumed yet (so `]` closes an empty array). -/
def parseElements (fuel : Nat) (l : List Char) (first : Bool)
    (acc : List JsValue) : Option (JsValue × List Char) :=
  match fuel with
  | 0 => none
  | fuel + 1 =>
    match skipWs l with
    | ']' :: r =>
      if first then some (JsValue.arr acc.reverse, r) else none
    | l' =>
      match parseValue fuel l' with
      | some (v, afterVal) =>
        match skipWs afterVal with
        | ',' :: r => parseElements fuel r false (v :: acc)
        | ']' :: r => some (JsValue.arr (v :: acc).reverse, r)
        | _ => none
      | none => none

end

/-- `JSON.parse` on a string: parse one value and require only
whitespace to remain; `none` models the thrown `SyntaxError`. -/
def jsonParse (s : String) : Option JsValue :=
  match parseValue (2 * s.length + 4) s.data with
  | some (v, rest) => if skipWs rest = [] then some v else none
  | none => none

end JsonParser

section StringPipeline

/-- The whitespace class removed by JavaScript `String.prototype.trim`
(the ASCII members, which cover the gateway's traffic). -/
def jsWhitespace (c : Char) : Bool :=
  c = ' ' || c = '\t' || c = '\n' || c = '\r' ||
  c = '\x0b' || c = '\x0c'

/-- `String.prototype.trim` on a character list: drop the whitespace
prefix and suffix. -/
def jsTrimList (l : List Char) : List Char :=
  ((l.dropWhile jsWhitespace).reverse.dropWhile jsWhitespace).reverse

/-- ASCII letter, the character class of the fence-info match. -/
def isAsciiLetter (c : Char) : Bool :=
  ('a' ≤ c && c ≤ 'z') || ('A' ≤ c && c ≤ 'Z')

/-- `query.replace(/```[a-zA-Z]*\n?/g, '')`: scan left to right; at a
triple backtick, drop it together with the greedy run of letters and an
optional newline and continue after the match (the semantics of a
global regex replace); otherwise keep the character. -/
def removeFences (l : List Char) : List Char :=
  match l with
  | [] => []
  | c :: rest =>
    if c = '`' && decide (rest.take 2 = ['`', '`']) then
      let afterInfo := (rest.drop 2).dropWhile isAsciiLetter
      let afterNl := if afterInfo.head? = some '\n' then afterInfo.tail else afterInfo
      removeFences afterNl
    else c :: removeFences rest
termination_by l.length
decreasing_by
  · simp only [List.length_cons]
    have h1 : ((rest.drop 2).dropWhile isAsciiLetter).length ≤ (rest.drop 2).length :=
      (List.dropWhile_suffix isAsciiLetter).length_le
    have h2 : (rest.drop 2).length ≤ rest.length := by
      simp [List.length_drop]
    have h3 : ∀ m : List Char, m.tail.length ≤ m.length := by
      intro m; cases m <;> simp
    by_cases hnl : ((rest.drop 2).dropWhile isAsciiLetter).head? = some '\n' <;>
      simp only [hnl, if_pos, if_neg, if_true, if_false] <;>
      [skip; skip] <;> first
      | (exact lt_of_le_of_lt (le_trans (h3 _) (le_trans h1 h2)) (by omega))
      | (exact lt_of_le_of_lt (le_trans h1 h2) (by omega))
  · simp [List.length_cons]

/-- `query.replace(/```/g, '')`: scan left to right; drop each triple
backtick and continue after it; keep every other character. -/
def removeTicks (l : List Char) : List Char :=
  match l with
  | [] => []
  | c :: rest =>
    if c = '`' && decide (rest.take 2 = ['`', '`']) then
      removeTicks (rest.drop 2)
    else c :: removeTicks rest
termination_by l.length
decreasing_by
  · simp only [List.length_cons]
    have h2 : (rest.drop 2).length ≤ rest.length := by
      simp [List.length_drop]
    omega
  · simp [List.length_cons]

/-- The post-processing applied to the chat-completion content in
`translateToCypher` (line 48-49): trim, strip fenced-code delimiters
with the two regex replaces, trim again. -/
def cleanCypher (content : String) : String :=
  String.mk (jsTrimList (removeTicks (removeFences (jsTrimList content.data))))

/-- `translateToCypher` over an oracle `llm` modelling the OpenAI
chat-completions call: `llm q` is the content string of the first
choice, or `Except.error` when the awaited call throws.  On success the
content is cleaned by `cleanCypher` and returned. -/
def translateToCypher (llm : String → Except String String)
    (question : String) : Except String String :=
  match llm question with
  | .error e => .error e
  | .ok content => .ok (cleanCypher content)

end StringPipeline

unseal removeFences removeTicks

section Handlers

open JsValue

/-- Oracle type for the MCP `callTool` invocation: tool name and
arguments object to the tool-result envelope, or a thrown error. -/
def ToolOracle := String → JsValue → Except String JsValue

/-- Modelled from the spec: the `groundedAnswer` Grounding Summarizer
(§4.4) is called by `/method1` and `/method2` but its definition is not
part of the gateway source; per the spec it takes the question, the row
set and the query that produced it, invokes a text-generation call and
returns the generated text, or fails when that call fails.  We model it
as an opaque oracle with exactly that contract. -/
def SummarizerOracle := String → JsValue → JsValue → Except String String

/-- Query extraction of the `/method2` handler (line 88):
`parsed.cypher || parsed.cypherQuery`. -/
def method2ExtractQuery (parsed : JsValue) : JsValue :=
  jsOr (parsed.getField "cypher") (parsed.getField "cypherQuery")

/-- Row extraction of the `/method2` handler (line 89):
`parsed.graphData || parsed.rows || parsed.data`. -/
def method2ExtractRows (parsed : JsValue) : JsValue :=
  jsOr (jsOr (parsed.getField "graphData") (parsed.getField "rows"))
    (parsed.getField "data")

/-- The result-normalization block of `/method2` (lines 84-90): read
`toolResult.content?.[0]`; when that block's `type` is `'text'`, parse
its `text` with `JSON.parse` (a parse failure throws and is modelled as
`Except.error`) and extract query and rows from the parsed object;
otherwise both stay `undefined`.  `method2Blk` is the
`toolResult.content?.[0]` read. -/
def method2Blk (toolResult : JsValue) : JsValue :=
  (toolResult.getField "content").index0

/-- The result-normalization block of `/method2`, continued: branch on
the block's `type`. -/
def method2Normalize (toolResult : JsValue) : Except String (JsValue × JsValue) :=
  match (method2Blk toolResult).getField "type" with
  | JsValue.str ty =>
    if ty = "text" then
      match (method2Blk toolResult).getField "text" with
      | JsValue.str t =>
        match jsonParse t with
        | some parsed => .ok (method2ExtractQuery parsed, method2ExtractRows parsed)
        | none => .error "Unexpected token in JSON"
      | _ => .error "Unexpected token in JSON"
    else .ok (JsValue.undef, JsValue.undef)
  | _ => .ok (JsValue.undef, JsValue.undef)

/-- The `/method1` handler: translate the natural-language input to
Cypher, execute it through the `read_neo4j_cypher` tool, summarize
`result.content?.json || result.content?.text` with `groundedAnswer`,
and reply `{mode, cypher, rawGrounding: result.content, groundedAnswer}`;
any thrown step yields `500 {error: message}` via the `catch` block. -/
def method1Handle (llm : String → Except String String) (tool : ToolOracle)
    (summarize : SummarizerOracle) (naturalLanguage : String) : HandlerOut :=
  match translateToCypher llm naturalLanguage with
  | .error e => ⟨errResponse e, [], 0⟩
  | .ok cypher =>
    let args := JsValue.obj [("query", JsValue.str cypher)]
    let calls := [("read_neo4j_cypher", args)]
    match tool "read_neo4j_cypher" args with
    | .error e => ⟨errResponse e, calls, 0⟩
    | .ok result =>
      let content := result.getField "content"
      let rows := jsOr (content.getField "json") (content.getField "text")
      match summarize naturalLanguage rows (JsValue.str cypher) with
      | .error e => ⟨errResponse e, calls, 1⟩
      | .ok grounded =>
        ⟨{ status := 200,
           body := dropUndef
             [("mode", JsValue.str "method1"),
              ("cypher", JsValue.str cypher),
              ("rawGrounding", content),
              ("groundedAnswer", JsValue.str grounded)] },
         calls, 1⟩

/-- The `/method2` handler: call the `text2cypher` tool on the input,
normalize its envelope (lines 84-90), summarize with `groundedAnswer`,
and reply `{mode, cypher, rawGrounding: graphData, groundedAnswer}`;
any thrown step yields `500 {error: message}`. -/
def method2Handle (tool : ToolOracle) (summarize : SummarizerOracle)
    (naturalLanguage : String) : HandlerOut :=
  let args := JsValue.obj [("query", JsValue.str naturalLanguage)]
  let calls := [("text2cypher", args)]
  match tool "text2cypher" args with
  | .error e => ⟨errResponse e, calls, 0⟩
  | .ok toolResult =>
    match method2Normalize toolResult with
    | .error e => ⟨errResponse e, calls, 0⟩
    | .ok (cypher, graphData) =>
      match summarize naturalLanguage graphData cypher with
      | .error e => ⟨errResponse e, calls, 1⟩
      | .ok grounded =>
        ⟨{ status := 200,
           body := dropUndef
             [("mode", JsValue.str "method2"),
              ("cypher", cypher),
              ("rawGrounding", graphData),
              ("groundedAnswer", JsValue.str grounded)] },
         calls, 1⟩

/-- The `/no-rag` handler: translate the input to Cypher, execute it
through `read_neo4j_cypher`, and reply `{mode, cypher, rawGrounding:
naturalLanguage, groundedAnswer: result.content}` without calling the
summarizer; any thrown step yields `500 {error: message}`. -/
def noRagHandle (llm : String → Except String String) (tool : ToolOracle)
    (naturalLanguage : String) : HandlerOut :=
  match translateToCypher llm naturalLanguage with
  | .error e => ⟨errResponse e, [], 0⟩
  | .ok cypher =>
    let args := JsValue.obj [("query", JsValue.str cypher)]
    let calls := [("read_neo4j_cypher", args)]
    match tool "read_neo4j_cypher" args with
    | .error e => ⟨errResponse e, calls, 0⟩
    | .ok result =>
      ⟨{ status := 200,
         body := dropUndef
           [("mode", JsValue.str "no-rag"),
            ("cypher", JsValue.str cypher),
            ("rawGrounding", JsValue.str naturalLanguage),
            ("groundedAnswer", result.getField "content")] },
       calls, 0⟩

/-- The routes the Express app registers: three POST handlers and
nothing else (lines 56, 76, 103 — no GET route exists). -/
def gatewayRoutes : List (String × String) :=
  [("POST", "/method1"), ("POST", "/method2"), ("POST", "/no-rag")]

/-- Route dispatch of the Express app: an inbound request either
reaches one of the three registered handlers, or no handler at all
(`none`, in which case Express replies with its built-in 404, not with
application JSON). -/
def dispatch (llm : String → Except String String) (tool : ToolOracle)
    (summarize : SummarizerOracle) (httpMethod path naturalLanguage : String) :
    Option HandlerOut :=
  if httpMethod = "POST" && path = "/method1" then
    some (method1Handle llm tool summarize naturalLanguage)
  else if httpMethod = "POST" && path = "/method2" then
    some (method2Handle tool summarize naturalLanguage)
  else if httpMethod = "POST" && path = "/no-rag" then
    some (noRagHandle llm tool naturalLanguage)
  else none

end Handlers

section SpecSideDefinitions

/-- Does this content block have `type` equal to `"text"`?  (Shared by
the handler-behaviour statements and the spec-side normalizer.) -/
def isTextBlock (b : JsValue) : Bool :=
  match b.getField "type" with
  | JsValue.str ty => ty == "text"
  | _ => false

/-- Modelled from the spec's words (claim C2): extract the query by
trying, in this order, a direct query field (`cypherQuery`), a
`cypher` field, a generic `query` field, then the nested metadata
field — for comparison with the handler's `method2ExtractQuery`. -/
def claimC2Query (parsed : JsValue) : JsValue :=
  JsValue.jsOr
    (JsValue.jsOr
      (JsValue.jsOr (parsed.getField "cypherQuery") (parsed.getField "cypher"))
      (parsed.getField "query"))
    ((parsed.getField "metadata").getField "cypher")

/-- Modelled from the spec's words (claim C2): extract the rows by
trying a `records` field, else a `rows` field, else a generic `data`
field — for comparison with the handler's `method2ExtractRows`. -/
def claimC2Rows (parsed : JsValue) : JsValue :=
  JsValue.jsOr
    (JsValue.jsOr (parsed.getField "records") (parsed.getField "rows"))
    (parsed.getField "data")

/-- Modelled from the spec's words (claim C6): locate the first block
whose type is `"text"` at ANY position of the content list, parse its
text as JSON and apply the same field extraction — for comparison with
the handler's `method2Normalize`, which only examines block 0. -/
def claimC6Normalize (toolResult : JsValue) : Except String (JsValue × JsValue) :=
  match toolResult.getField "content" with
  | JsValue.arr blocks =>
    match blocks.find? isTextBlock with
    | some blk =>
      match blk.getField "text" with
      | JsValue.str t =>
        match jsonParse t with
        | some parsed => .ok (method2ExtractQuery parsed, method2ExtractRows parsed)
        | none => .error "Unexpected token in JSON"
      | _ => .error "Unexpected token in JSON"
    | none => .ok (JsValue.undef, JsValue.undef)
  | _ => .ok (JsValue.undef, JsValue.undef)

end SpecSideDefinitions

section ConcreteInputs

/-- A parsed tool response carrying the query only under the generic
`query` field named by claim C2's priority list. -/
def parsedC2q : JsValue :=
  JsValue.obj [("query", JsValue.str "MATCH (x) RETURN x")]

/-- A parsed tool response carrying rows under both the `records`
field named first by claim C2 and the `rows` field the code reads. -/
def parsedC2r : JsValue :=
  JsValue.obj
    [("records", JsValue.arr [JsValue.obj [("caseId", JsValue.str "001")]]),
     ("rows", JsValue.str "rows-payload")]

/-- A tool-response envelope whose first content block is a non-text
block and whose second block is the text block carrying the query. -/
def envC6 : JsValue :=
  JsValue.obj [("content", JsValue.arr
    [JsValue.obj [("type", JsValue.str "image")],
     JsValue.obj [("type", JsValue.str "text"),
       ("text", JsValue.str "\x7b\"cypher\":\"MATCH (m) RETURN m\"\x7d")]])]

/-- The round-trip envelope of claim C7: one text content block whose
text is the embedded JSON document. -/
def envC7 : JsValue :=
  JsValue.obj [("content", JsValue.arr
    [JsValue.obj [("type", JsValue.str "text"),
      ("text", JsValue.str
        "\x7b\"cypher\":\"MATCH (c:Case) RETURN c\",\"rows\":[\x7b\"a\":1\x7d]\x7d")]])]

end ConcreteInputs

/-- C7 (confirmed): the Result Normalizer applied to a content-block
envelope whose first text block contains the embedded JSON text
`{"cypher":"MATCH (c:Case) RETURN c","rows":[{"a":1}]}` yields exactly
the query `"MATCH (c:Case) RETURN c"` and the row set `[{"a":1}]`. -/
theorem c7_roundtrip :
    method2Normalize envC7 =
      .ok (JsValue.str "MATCH (c:Case) RETURN c",
           JsValue.arr [JsValue.obj [("a", JsValue.num 1)]]) := by
  rfl

/-- C4 counterexample: the app registers no `/health` route at all, so
a `GET /health` request reaches no handler (Express answers with its
built-in 404), refuting the claim that it returns `{ok: true}`. -/
theorem c4_health_unrouted_cex :
    dispatch (fun _ => .ok "MATCH (c:Case) RETURN c")
      (fun _ _ => .ok (JsValue.obj [("content", JsValue.arr [])]))
      (fun _ _ _ => .ok "summary") "GET" "/health" "ping" = none := by
  rfl

/-- C4 (amended): the gateway registers only the three POST routes
`/method1`, `/method2`, `/no-rag`; `GET /health` matches none of them
and is never dispatched to a handler, whatever the collaborators and
input are. -/
theorem c4_no_health_route (llm : String → Except String String)
    (tool : ToolOracle) (summarize : SummarizerOracle) (nl : String) :
    dispatch llm tool summarize "GET" "/health" nl = none ∧
      ("GET", "/health") ∉ gatewayRoutes := by
  refine ⟨by rfl, ?_⟩
  simp [gatewayRoutes]

/-- C2 counterexample: at a parsed object holding the query only under
the generic `query` field, the claimed priority list finds it while
the code's extraction (`cypher || cypherQuery`) yields `undefined`;
and at a parsed object holding both `records` and `rows`, the claimed
rows priority picks `records` while the code (`graphData || rows ||
data`) picks `rows`. -/
theorem c2_spec_priority_cex :
    claimC2Query parsedC2q ≠ method2ExtractQuery parsedC2q ∧
    method2ExtractQuery parsedC2q = JsValue.undef ∧
    claimC2Rows parsedC2r ≠ method2ExtractRows parsedC2r ∧
    method2ExtractRows parsedC2r = JsValue.str "rows-payload" := by
  refine ⟨fun h => ?_, by rfl, fun h => ?_, by rfl⟩
  · exact JsValue.noConfusion h
  · exact JsValue.noConfusion h

/-- C2 (amended): the Result Normalizer extracts the query by trying a
`cypher` field then a `cypherQuery` field, and the rows by trying a
`graphData` field, else a `rows` field, else a `data` field, taking
the first truthy value; `records`, generic `query` and metadata fields
are not consulted. -/
theorem c2_field_priority (parsed : JsValue) :
    ((parsed.getField "cypher").truthy = true →
      method2ExtractQuery parsed = parsed.getField "cypher") ∧
    ((parsed.getField "cypher").truthy = false →
      method2ExtractQuery parsed = parsed.getField "cypherQuery") ∧
    ((parsed.getField "graphData").truthy = true →
      method2ExtractRows parsed = parsed.getField "graphData") ∧
    ((parsed.getField "graphData").truthy = false →
      (parsed.getField "rows").truthy = true →
      method2ExtractRows parsed = parsed.getField "rows") ∧
    ((parsed.getField "graphData").truthy = false →
      (parsed.getField "rows").truthy = false →
      method2ExtractRows parsed = parsed.getField "data") := by
  refine ⟨fun h => ?_, fun h => ?_, fun h => ?_, fun h h2 => ?_, fun h h2 => ?_⟩ <;>
    simp [method2ExtractQuery, method2ExtractRows, JsValue.jsOr, h]
  · simp [h2]
  · simp [h2]

/-- Witness for `c2_field_priority` at concrete parsed objects: a
truthy `cypher` field is returned as the query, and with `graphData`
absent a truthy `rows` field is returned as the rows. -/
theorem c2_field_priority_witness :
    method2ExtractQuery (JsValue.obj [("cypher", JsValue.str "Q")]) =
      JsValue.str "Q" ∧
    method2ExtractRows (JsValue.obj [("rows", JsValue.arr [])]) =
      JsValue.arr [] :=
  ⟨(c2_field_priority _).1 (by rfl),
   (c2_field_priority _).2.2.2.1 (by rfl) (by rfl)⟩

/-- C6 counterexample: on an envelope whose first block is a non-text
block and whose second block is the text block carrying the query, the
spec's normalizer (first text block at any position) extracts the
query, but the code's normalizer — which reads only
`toolResult.content?.[0]` — extracts nothing. -/
theorem c6_later_text_block_ignored_cex :
    claimC6Normalize envC6 ≠ method2Normalize envC6 ∧
    method2Normalize envC6 = .ok (JsValue.undef, JsValue.undef) ∧
    claimC6Normalize envC6 =
      .ok (JsValue.str "MATCH (m) RETURN m", JsValue.undef) := by
  refine ⟨fun h => ?_, by rfl, by rfl⟩
  have h1 : claimC6Normalize envC6 =
      .ok (JsValue.str "MATCH (m) RETURN m", JsValue.undef) := by rfl
  have h2 : method2Normalize envC6 = .ok (JsValue.undef, JsValue.undef) := by rfl
  rw [h1, h2] at h
  simp at h

/-- C6 (amended): the Result Normalizer examines only block 0 of the
content list — its result is unchanged by whatever blocks follow — and
when block 0 is not a text block it extracts nothing (query and rows
stay `undefined`), even if a text block occurs later. -/
theorem c6_only_first_block (b : JsValue) (rest : List JsValue) :
    method2Normalize (JsValue.obj [("content", JsValue.arr (b :: rest))]) =
      method2Normalize (JsValue.obj [("content", JsValue.arr [b])]) ∧
    (isTextBlock b = false →
      method2Normalize (JsValue.obj [("content", JsValue.arr (b :: rest))]) =
        .ok (JsValue.undef, JsValue.undef)) := by
  constructor
  · rfl
  · intro h
    unfold isTextBlock at h
    unfold method2Normalize
    have hblk :
        method2Blk (JsValue.obj [("content", JsValue.arr (b :: rest))]) = b := by
      rfl
    rw [hblk]
    match hty : b.getField "type" with
    | JsValue.str ty =>
      rw [hty] at h
      have hne : ty ≠ "text" := by simpa using h
      simp [hne]
    | JsValue.undef => rfl
    | JsValue.null => rfl
    | JsValue.bool c => rfl
    | JsValue.num n => rfl
    | JsValue.arr l => rfl
    | JsValue.obj l => rfl

/-- Witness for `c6_only_first_block`: with an image block first and
the text block second, the handler's normalizer extracts nothing. -/
theorem c6_only_first_block_witness :
    method2Normalize (JsValue.obj [("content", JsValue.arr
      [JsValue.obj [("type", JsValue.str "image")],
       JsValue.obj [("type", JsValue.str "text"),
         ("text", JsValue.str "\x7b\"cypher\":\"MATCH (m) RETURN m\"\x7d")]])]) =
      .ok (JsValue.undef, JsValue.undef) :=
  (c6_only_first_block (JsValue.obj [("type", JsValue.str "image")])
    [JsValue.obj [("type", JsValue.str "text"),
      ("text", JsValue.str "\x7b\"cypher\":\"MATCH (m) RETURN m\"\x7d")]]).2 (by rfl)

section Stubs

/-- Stubbed chat-completion call returning a fixed query. -/
def llmOkStub : String → Except String String :=
  fun _ => .ok "MATCH (c:Case) RETURN c"

/-- Stubbed chat-completion call that throws. -/
def llmErrStub : String → Except String String :=
  fun _ => .error "llm failed"

/-- A well-formed tool-result envelope: one text content block whose
text decodes to a query and rows. -/
def toolOkEnv : JsValue :=
  JsValue.obj [("content", JsValue.arr
    [JsValue.obj [("type", JsValue.str "text"),
      ("text", JsValue.str
        "\x7b\"cypher\":\"MATCH (c:Case) RETURN c\",\"rows\":[\x7b\"a\":1\x7d]\x7d")]])]

/-- Stubbed `callTool` returning `toolOkEnv`. -/
def toolOkStub : ToolOracle := fun _ _ => .ok toolOkEnv

/-- Stubbed `callTool` that throws. -/
def toolErrStub : ToolOracle := fun _ _ => .error "tool failed"

/-- A tool-result envelope whose text block does not hold JSON, so the
`JSON.parse` in the normalization block throws. -/
def envParseErr : JsValue :=
  JsValue.obj [("content", JsValue.arr
    [JsValue.obj [("type", JsValue.str "text"),
      ("text", JsValue.str "plainly not json")]])]

/-- Stubbed `callTool` returning `envParseErr`. -/
def toolParseErrStub : ToolOracle := fun _ _ => .ok envParseErr

/-- Stubbed summarizer returning fixed prose. -/
def sumOkStub : SummarizerOracle := fun _ _ _ => .ok "grounded summary"

/-- Stubbed summarizer that throws. -/
def sumErrStub : SummarizerOracle := fun _ _ _ => .error "summarizer failed"

end Stubs

/-- The error response of a route carries only the error message: its
status is 500 and its body is `{error: e}`, with no `cypher`,
`rawGrounding` or `groundedAnswer` field. -/
def errorOnly (r : HttpResponse) (e : String) : Prop :=
  r = errResponse e ∧
  r.body.lookup "cypher" = none ∧
  r.body.lookup "rawGrounding" = none ∧
  r.body.lookup "groundedAnswer" = none

/-- C1 (confirmed): in every mode, when any pipeline step throws —
translation, tool invocation, normalization or summarization — the
handler replies HTTP 500 with body `{error: <the fault's message>}`
and no partial results (no `cypher`, `rawGrounding` or
`groundedAnswer` field).  The summarizer is the spec-modelled oracle
`SummarizerOracle` since `groundedAnswer` is not defined in the
gateway source. -/
theorem c1_fault_yields_500
    (llm : String → Except String String) (tool : ToolOracle)
    (summarize : SummarizerOracle) (nl e qc : String) (tr q g : JsValue) :
    (llm nl = .error e →
      errorOnly (method1Handle llm tool summarize nl).response e) ∧
    (llm nl = .ok qc → (∀ n a, tool n a = .error e) →
      errorOnly (method1Handle llm tool summarize nl).response e) ∧
    (llm nl = .ok qc → (∀ n a, tool n a = .ok tr) →
      (∀ x d c, summarize x d c = .error e) →
      errorOnly (method1Handle llm tool summarize nl).response e) ∧
    ((∀ n a, tool n a = .error e) →
      errorOnly (method2Handle tool summarize nl).response e) ∧
    ((∀ n a, tool n a = .ok tr) → method2Normalize tr = .error e →
      errorOnly (method2Handle tool summarize nl).response e) ∧
    ((∀ n a, tool n a = .ok tr) → method2Normalize tr = .ok (q, g) →
      (∀ x d c, summarize x d c = .error e) →
      errorOnly (method2Handle tool summarize nl).response e) ∧
    (llm nl = .error e →
      errorOnly (noRagHandle llm tool nl).response e) ∧
    (llm nl = .ok qc → (∀ n a, tool n a = .error e) →
      errorOnly (noRagHandle llm tool nl).response e) := by
  refine ⟨fun h1 => ?_, fun h1 h2 => ?_, fun h1 h2 h3 => ?_, fun h2 => ?_,
    fun h2 h4 => ?_, fun h2 h4 h3 => ?_, fun h1 => ?_, fun h1 h2 => ?_⟩
  · simp only [method1Handle, translateToCypher, h1]
    exact ⟨rfl, rfl, rfl, rfl⟩
  · simp only [method1Handle, translateToCypher, h1, h2]
    exact ⟨rfl, rfl, rfl, rfl⟩
  · simp only [method1Handle, translateToCypher, h1, h2, h3]
    exact ⟨rfl, rfl, rfl, rfl⟩
  · simp only [method2Handle, h2]
    exact ⟨rfl, rfl, rfl, rfl⟩
  · simp only [method2Handle, h2, h4]
    exact ⟨rfl, rfl, rfl, rfl⟩
  · simp only [method2Handle, h2, h4, h3]
    exact ⟨rfl, rfl, rfl, rfl⟩
  · simp only [noRagHandle, translateToCypher, h1]
    exact ⟨rfl, rfl, rfl, rfl⟩
  · simp only [noRagHandle, translateToCypher, h1, h2]
    exact ⟨rfl, rfl, rfl, rfl⟩

/-- Witness for `c1_fault_yields_500`: each failing step produces the
500/`{error}` response at concrete stubs in every mode. -/
theorem c1_fault_yields_500_witness :
    errorOnly (method1Handle llmErrStub toolOkStub sumOkStub "q").response
      "llm failed" ∧
    errorOnly (method1Handle llmOkStub toolErrStub sumOkStub "q").response
      "tool failed" ∧
    errorOnly (method1Handle llmOkStub toolOkStub sumErrStub "q").response
      "summarizer failed" ∧
    errorOnly (method2Handle toolErrStub sumOkStub "q").response
      "tool failed" ∧
    errorOnly (method2Handle toolParseErrStub sumOkStub "q").response
      "Unexpected token in JSON" ∧
    errorOnly (method2Handle toolOkStub sumErrStub "q").response
      "summarizer failed" ∧
    errorOnly (noRagHandle llmErrStub toolOkStub "q").response "llm failed" ∧
    errorOnly (noRagHandle llmOkStub toolErrStub "q").response "tool failed" :=
  ⟨(c1_fault_yields_500 llmErrStub toolOkStub sumOkStub "q" "llm failed" ""
      JsValue.undef JsValue.undef JsValue.undef).1 rfl,
   (c1_fault_yields_500 llmOkStub toolErrStub sumOkStub "q" "tool failed"
      "MATCH (c:Case) RETURN c" JsValue.undef JsValue.undef JsValue.undef).2.1
      rfl (fun _ _ => rfl),
   (c1_fault_yields_500 llmOkStub toolOkStub sumErrStub "q" "summarizer failed"
      "MATCH (c:Case) RETURN c" toolOkEnv JsValue.undef JsValue.undef).2.2.1
      rfl (fun _ _ => rfl) (fun _ _ _ => rfl),
   (c1_fault_yields_500 llmOkStub toolErrStub sumOkStub "q" "tool failed" ""
      JsValue.undef JsValue.undef JsValue.undef).2.2.2.1 (fun _ _ => rfl),
   (c1_fault_yields_500 llmOkStub toolParseErrStub sumOkStub "q"
      "Unexpected token in JSON" "" envParseErr JsValue.undef
      JsValue.undef).2.2.2.2.1 (fun _ _ => rfl) rfl,
   (c1_fault_yields_500 llmOkStub toolOkStub sumErrStub "q" "summarizer failed"
      "" toolOkEnv (JsValue.str "MATCH (c:Case) RETURN c")
      (JsValue.arr [JsValue.obj [("a", JsValue.num 1)]])).2.2.2.2.2.1
      (fun _ _ => rfl) rfl (fun _ _ _ => rfl),
   (c1_fault_yields_500 llmErrStub toolOkStub sumOkStub "q" "llm failed" ""
      JsValue.undef JsValue.undef JsValue.undef).2.2.2.2.2.2.1 rfl,
   (c1_fault_yields_500 llmOkStub toolErrStub sumOkStub "q" "tool failed"
      "MATCH (c:Case) RETURN c" JsValue.undef JsValue.undef
      JsValue.undef).2.2.2.2.2.2.2 rfl (fun _ _ => rfl)⟩

/-- A tool-result envelope whose embedded JSON carries rows but no
query under any of the fields the handler reads. -/
def envNoQuery : JsValue :=
  JsValue.obj [("content", JsValue.arr
    [JsValue.obj [("type", JsValue.str "text"),
      ("text", JsValue.str "\x7b\"graphData\":[\x7b\"a\":1\x7d]\x7d")]])]

/-- Stubbed `callTool` returning `envNoQuery`. -/
def toolNoQueryStub : ToolOracle := fun _ _ => .ok envNoQuery

/-- C3 counterexample: when the `text2cypher` response yields no
locatable query string, `/method2` does NOT report a "no query
produced" failure: it answers HTTP 200 with no `error` field, the
`cypher` field simply absent, and the summarizer invoked anyway. -/
theorem c3_no_query_still_200_cex :
    (method2Handle toolNoQueryStub sumOkStub "find cases").response.status = 200 ∧
    (method2Handle toolNoQueryStub sumOkStub
      "find cases").response.body.lookup "error" = none ∧
    (method2Handle toolNoQueryStub sumOkStub
      "find cases").response.body.lookup "cypher" = none ∧
    (method2Handle toolNoQueryStub sumOkStub "find cases").summarizerCalls = 1 :=
  ⟨rfl, rfl, rfl, rfl⟩

/-- C3 (amended): when the tool response yields no locatable query
(the extracted query is `undefined`), the `/method2` handler does not
fail: it invokes the summarizer with the undefined query and answers
HTTP 200 whose body has no `cypher` field and no `error` field. -/
theorem c3_missing_query_succeeds (tool : ToolOracle)
    (summarize : SummarizerOracle) (nl s : String) (tr g : JsValue)
    (htool : ∀ n a, tool n a = .ok tr)
    (hnorm : method2Normalize tr = .ok (JsValue.undef, g))
    (hsum : ∀ x d c, summarize x d c = .ok s) :
    (method2Handle tool summarize nl).response.status = 200 ∧
    (method2Handle tool summarize nl).response.body.lookup "cypher" = none ∧
    (method2Handle tool summarize nl).response.body.lookup "error" = none ∧
    (method2Handle tool summarize nl).summarizerCalls = 1 := by
  simp only [method2Handle, htool, hnorm, hsum]
  cases hg : g.isDefined <;>
    simp [dropUndef, hg, List.lookup, JsValue.isDefined]

/-- Witness for `c3_missing_query_succeeds` at the concrete no-query
envelope and stub summarizer. -/
theorem c3_missing_query_succeeds_witness :
    (method2Handle toolNoQueryStub sumOkStub "q").response.status = 200 ∧
    (method2Handle toolNoQueryStub sumOkStub
      "q").response.body.lookup "cypher" = none ∧
    (method2Handle toolNoQueryStub sumOkStub
      "q").response.body.lookup "error" = none ∧
    (method2Handle toolNoQueryStub sumOkStub "q").summarizerCalls = 1 :=
  c3_missing_query_succeeds toolNoQueryStub sumOkStub "q" "grounded summary"
    envNoQuery (JsValue.arr [JsValue.obj [("a", JsValue.num 1)]])
    (fun _ _ => rfl) rfl (fun _ _ _ => rfl)

/-- Stubbed chat-completion call whose content is empty. -/
def llmEmptyStub : String → Except String String := fun _ => .ok ""

/-- C5 counterexample: when the text-generation call returns empty
content, `translateToCypher` does not surface an upstream error — it
returns the empty query, and `/method1` passes that empty query to
`read_neo4j_cypher` for execution. -/
theorem c5_empty_query_forwarded_cex :
    translateToCypher llmEmptyStub "list cases" = .ok "" ∧
    (method1Handle llmEmptyStub toolOkStub sumOkStub "list cases").toolCalls =
      [("read_neo4j_cypher", JsValue.obj [("query", JsValue.str "")])] :=
  ⟨rfl, rfl⟩

/-- C5 (amended): a thrown text-generation call propagates out of
`translateToCypher` unmasked (and the route replies 500 with its
message), but empty generated content is not detected:
`translateToCypher` returns the empty query, which `/method1` passes
on to query execution. -/
theorem c5_upstream_error_propagates
    (llm : String → Except String String) (tool : ToolOracle)
    (summarize : SummarizerOracle) (nl e : String) :
    (llm nl = .error e →
      translateToCypher llm nl = .error e ∧
      (method1Handle llm tool summarize nl).response = errResponse e) ∧
    (llm nl = .ok "" →
      translateToCypher llm nl = .ok "" ∧
      (method1Handle llm tool summarize nl).toolCalls =
        [("read_neo4j_cypher", JsValue.obj [("query", JsValue.str "")])]) := by
  constructor
  · intro h
    refine ⟨by simp [translateToCypher, h], ?_⟩
    simp only [method1Handle, translateToCypher, h]
  · intro h
    have hclean : cleanCypher "" = "" := by rfl
    refine ⟨by simp [translateToCypher, h, hclean], ?_⟩
    simp only [method1Handle, translateToCypher, h, hclean]
    cases htool : tool "read_neo4j_cypher"
        (JsValue.obj [("query", JsValue.str "")]) with
    | error e2 => rfl
    | ok result =>
      cases hsum : summarize nl
          (JsValue.jsOr ((result.getField "content").getField "json")
            ((result.getField "content").getField "text"))
          (JsValue.str "") with
      | error e3 => simp only [hsum]
      | ok grounded => simp only [hsum]

/-- Witness for `c5_upstream_error_propagates` at concrete stubs: the
thrown call's message reaches the 500 response, and the empty content
becomes an empty executed query. -/
theorem c5_upstream_error_propagates_witness :
    ((method1Handle llmErrStub toolOkStub sumOkStub "q").response =
      errResponse "llm failed") ∧
    ((method1Handle llmEmptyStub toolOkStub sumOkStub "q").toolCalls =
      [("read_neo4j_cypher", JsValue.obj [("query", JsValue.str "")])]) :=
  ⟨((c5_upstream_error_propagates llmErrStub toolOkStub sumOkStub "q"
      "llm failed").1 rfl).2,
   ((c5_upstream_error_propagates llmEmptyStub toolOkStub sumOkStub "q"
      "unused").2 rfl).2⟩

/-- C8 (confirmed): on every successful `/no-rag` request the
`groundedAnswer` field of the response is the raw tool payload
`result.content`, exactly as returned, and the Grounding Summarizer is
never invoked (the handler contains no call to it, so its invocation
count is 0). -/
theorem c8_norag_raw_answer (llm : String → Except String String)
    (tool : ToolOracle) (nl q : String) (tr : JsValue)
    (hllm : llm nl = .ok q) (htool : ∀ n a, tool n a = .ok tr)
    (hdef : (tr.getField "content").isDefined = true) :
    (noRagHandle llm tool nl).summarizerCalls = 0 ∧
    (noRagHandle llm tool nl).response.status = 200 ∧
    (noRagHandle llm tool nl).response.body.lookup "groundedAnswer" =
      some (tr.getField "content") := by
  simp only [noRagHandle, translateToCypher, hllm, htool]
  refine ⟨by trivial, by trivial, ?_⟩
  simp [dropUndef, hdef, List.lookup]

/-- Witness for `c8_norag_raw_answer` at the stubbed collaborators:
the raw envelope's `content` comes back as `groundedAnswer` and the
summarizer count is 0. -/
theorem c8_norag_raw_answer_witness :
    (noRagHandle llmOkStub toolOkStub "find cases").summarizerCalls = 0 ∧
    (noRagHandle llmOkStub toolOkStub "find cases").response.status = 200 ∧
    (noRagHandle llmOkStub toolOkStub
      "find cases").response.body.lookup "groundedAnswer" =
      some (toolOkEnv.getField "content") :=
  c8_norag_raw_answer llmOkStub toolOkStub "find cases"
    "MATCH (c:Case) RETURN c" toolOkEnv rfl (fun _ _ => rfl) rfl

/-- C10 (confirmed): on every successful `/no-rag` request the
`rawGrounding` field of the response is the request's
`naturalLanguage` input string itself, verbatim. -/
theorem c10_norag_raw_grounding_input (llm : String → Except String String)
    (tool : ToolOracle) (nl q : String) (tr : JsValue)
    (hllm : llm nl = .ok q) (htool : ∀ n a, tool n a = .ok tr) :
    (noRagHandle llm tool nl).response.status = 200 ∧
    (noRagHandle llm tool nl).response.body.lookup "rawGrounding" =
      some (JsValue.str nl) := by
  simp only [noRagHandle, translateToCypher, hllm, htool]
  refine ⟨by trivial, ?_⟩
  cases hdef : (tr.getField "content").isDefined <;>
    simp [dropUndef, hdef, List.lookup]

/-- Witness for `c10_norag_raw_grounding_input` at the stubbed
collaborators: the input string comes back as `rawGrounding`. -/
theorem c10_norag_raw_grounding_input_witness :
    (noRagHandle llmOkStub toolOkStub "find cases").response.status = 200 ∧
    (noRagHandle llmOkStub toolOkStub
      "find cases").response.body.lookup "rawGrounding" =
      some (JsValue.str "find cases") :=
  c10_norag_raw_grounding_input llmOkStub toolOkStub "find cases"
    "MATCH (c:Case) RETURN c" toolOkEnv rfl (fun _ _ => rfl)

section FenceArtifacts

/-- Is the first character a backtick? -/
def headTick : List Char → Bool
  | c :: _ => c = '`'
  | [] => false

/-- Are the first two characters backticks? -/
def twoTick : List Char → Bool
  | a :: b :: _ => a = '`' && b = '`'
  | _ => false

/-- Does the list start with three backticks? -/
def startsTriple : List Char → Bool
  | a :: b :: c :: _ => a = '`' && b = '`' && c = '`'
  | _ => false

/-- Does the list contain three consecutive backticks anywhere — a
residual markdown code-fence delimiter? -/
def hasTriple : List Char → Bool
  | [] => false
  | c :: rest => startsTriple (c :: rest) || hasTriple rest

/-- No leading and no trailing JavaScript whitespace. -/
def noEdgeWS (l : List Char) : Bool :=
  (match l.head? with
   | some c => !jsWhitespace c
   | none => true) &&
  (match l.getLast? with
   | some c => !jsWhitespace c
   | none => true)

theorem twoTick_cons (a : Char) (t : List Char) :
    twoTick (a :: t) = (decide (a = '`') && headTick t) := by
  cases t <;> simp [twoTick, headTick]

theorem startsTriple_cons (a : Char) (t : List Char) :
    startsTriple (a :: t) = (decide (a = '`') && twoTick t) := by
  cases t with
  | nil => simp [startsTriple, twoTick]
  | cons b t' => cases t' <;> simp [startsTriple, twoTick, Bool.and_assoc]

theorem twoTick_iff_take (l : List Char) :
    twoTick l = true ↔ l.take 2 = ['`', '`'] := by
  match l with
  | [] => simp [twoTick]
  | [a] => simp [twoTick]
  | a :: b :: t => simp [twoTick, and_comm]

/-- A backtick heading the output of `removeTicks` was already heading
its input. -/
theorem headTick_removeTicks (l : List Char) :
    headTick (removeTicks l) = true → headTick l = true := by
  induction l using removeTicks.induct with
  | case1 => simp [removeTicks, headTick]
  | case2 c rest hc ih =>
    intro _
    simp only [Bool.and_eq_true, decide_eq_true_eq] at hc
    simp [headTick, hc.1]
  | case3 c rest hc ih =>
    rw [removeTicks, if_neg (by simpa using hc)]
    simp [headTick]

/-- Two backticks heading the output of `removeTicks` were already
heading its input. -/
theorem twoTick_removeTicks (l : List Char) :
    twoTick (removeTicks l) = true → twoTick l = true := by
  induction l using removeTicks.induct with
  | case1 => simp [removeTicks, twoTick]
  | case2 c rest hc ih =>
    intro _
    simp only [Bool.and_eq_true, decide_eq_true_eq] at hc
    have h2 : rest.take 2 = ['`', '`'] := by
      have := hc.2
      simpa using this
    rw [twoTick_cons]
    simp [hc.1, headTick]
    match rest, h2 with
    | a :: rest', h2 =>
      simp only [List.take, List.cons.injEq] at h2
      simp [headTick, h2.1]
  | case3 c rest hc ih =>
    rw [removeTicks, if_neg (by simpa using hc)]
    rw [twoTick_cons, twoTick_cons]
    intro h
    simp only [Bool.and_eq_true] at h ⊢
    exact ⟨h.1, headTick_removeTicks rest h.2⟩

/-- The global `/```/g` replace leaves no triple backtick in its
output: every leftmost occurrence is removed during the scan, and the
residual backtick runs it leaves are shorter than three. -/
theorem hasTriple_removeTicks (l : List Char) :
    hasTriple (removeTicks l) = false := by
  induction l using removeTicks.induct with
  | case1 => simp [removeTicks, hasTriple]
  | case2 c rest hc ih => rw [removeTicks, if_pos hc]; exact ih
  | case3 c rest hc ih =>
    rw [removeTicks, if_neg (by simpa using hc)]
    rw [hasTriple, ih, Bool.or_false, startsTriple_cons]
    by_cases hcc : c = '`'
    · simp only [hcc, decide_True, Bool.true_and]
      cases htt : twoTick (removeTicks rest) with
      | false => rfl
      | true =>
        exfalso
        have h2 : twoTick rest = true := twoTick_removeTicks rest htt
        rw [twoTick_iff_take] at h2
        rw [hcc] at hc
        simp [h2] at hc
    · simp [hcc]

theorem twoTick_append (a b : List Char) (h : twoTick a = true) :
    twoTick (a ++ b) = true := by
  match a, h with
  | x :: y :: t, h => simpa [twoTick] using h

theorem startsTriple_append (a b : List Char) (h : startsTriple a = true) :
    startsTriple (a ++ b) = true := by
  match a, h with
  | x :: y :: z :: t, h => simpa [startsTriple] using h

theorem hasTriple_append_right (a b : List Char)
    (h : hasTriple (a ++ b) = false) : hasTriple b = false := by
  induction a with
  | nil => exact h
  | cons x a' ih =>
    rw [List.cons_append, hasTriple, Bool.or_eq_false_iff] at h
    exact ih h.2

theorem hasTriple_append_left (a b : List Char)
    (h : hasTriple (a ++ b) = false) : hasTriple a = false := by
  induction a with
  | nil => rfl
  | cons x a' ih =>
    rw [List.cons_append, hasTriple, Bool.or_eq_false_iff] at h
    rw [hasTriple, Bool.or_eq_false_iff]
    refine ⟨?_, ih h.2⟩
    cases hs : startsTriple (x :: a') with
    | false => rfl
    | true =>
      exfalso
      have := startsTriple_append (x :: a') b hs
      rw [List.cons_append] at this
      rw [this] at h
      exact absurd h.1 (by simp)

/-- Trimming cannot introduce a triple backtick: the trimmed list is an
infix of the original. -/
theorem hasTriple_jsTrimList (l : List Char) (h : hasTriple l = false) :
    hasTriple (jsTrimList l) = false := by
  obtain ⟨t, ht⟩ := List.dropWhile_suffix (l := l) jsWhitespace
  obtain ⟨u, hu⟩ :=
    List.dropWhile_suffix (l := (l.dropWhile jsWhitespace).reverse) jsWhitespace
  have hs : l.dropWhile jsWhitespace = jsTrimList l ++ u.reverse := by
    unfold jsTrimList
    calc l.dropWhile jsWhitespace
        = (l.dropWhile jsWhitespace).reverse.reverse := by rw [List.reverse_reverse]
      _ = (u ++ (l.dropWhile jsWhitespace).reverse.dropWhile jsWhitespace).reverse := by
          rw [hu]
      _ = ((l.dropWhile jsWhitespace).reverse.dropWhile jsWhitespace).reverse
            ++ u.reverse := by rw [List.reverse_append]
  have h1 : hasTriple (l.dropWhile jsWhitespace) = false := by
    rw [← ht] at h
    exact hasTriple_append_right t _ h
  rw [hs] at h1
  exact hasTriple_append_left _ _ h1

theorem head?_dropWhile_not (p : Char → Bool) (l : List Char) (c : Char)
    (h : (l.dropWhile p).head? = some c) : p c = false := by
  induction l with
  | nil => simp [List.dropWhile] at h
  | cons x t ih =>
    rw [List.dropWhile] at h
    cases hp : p x with
    | true => rw [hp] at h; exact ih h
    | false =>
      rw [hp] at h
      simp only [List.head?] at h
      cases h
      exact hp

/-- A trimmed list has neither leading nor trailing whitespace. -/
theorem noEdgeWS_jsTrimList (l : List Char) : noEdgeWS (jsTrimList l) = true := by
  unfold noEdgeWS
  rw [Bool.and_eq_true]
  constructor
  · unfold jsTrimList
    rw [List.head?_reverse]
    cases hB : ((l.dropWhile jsWhitespace).reverse.dropWhile jsWhitespace).getLast? with
    | none => rfl
    | some c =>
      obtain ⟨u, hu⟩ :=
        List.dropWhile_suffix (l := (l.dropWhile jsWhitespace).reverse) jsWhitespace
      have hne : (l.dropWhile jsWhitespace).reverse.dropWhile jsWhitespace ≠ [] := by
        intro hnil
        rw [hnil] at hB
        simp at hB
      have : (u ++ (l.dropWhile jsWhitespace).reverse.dropWhile jsWhitespace).getLast?
          = some c := by
        rw [List.getLast?_append_of_ne_nil _ hne]
        exact hB
      rw [hu] at this
      rw [List.getLast?_reverse] at this
      simp [head?_dropWhile_not jsWhitespace l c this]
  · unfold jsTrimList
    rw [List.getLast?_reverse]
    cases hB : ((l.dropWhile jsWhitespace).reverse.dropWhile jsWhitespace).head? with
    | none => rfl
    | some c =>
      simp [head?_dropWhile_not jsWhitespace _ c hB]

end FenceArtifacts

/-- Stubbed chat-completion call whose content is a bare code fence. -/
def llmTicksStub : String → Except String String := fun _ => .ok "```"

/-- C9 counterexample: when the upstream call returns the string
"```" (and likewise ""), the Generated Query that `translateToCypher`
returns is the empty string — the claimed non-emptiness fails. -/
theorem c9_empty_query_cex :
    translateToCypher llmTicksStub "list cases" = .ok "" := by rfl

/-- C9 (amended): for every string returned by the upstream
text-generation call, the Generated Query that `translateToCypher`
returns contains no triple-backtick code-fence artifact and has no
leading or trailing whitespace — but it may be empty. -/
theorem c9_no_fence_no_edge_ws (llm : String → Except String String)
    (question content : String) (h : llm question = .ok content) :
    translateToCypher llm question = .ok (cleanCypher content) ∧
    hasTriple (cleanCypher content).data = false ∧
    noEdgeWS (cleanCypher content).data = true := by
  refine ⟨by simp [translateToCypher, h], ?_, ?_⟩
  · show hasTriple
      (jsTrimList (removeTicks (removeFences (jsTrimList content.data)))) = false
    exact hasTriple_jsTrimList _ (hasTriple_removeTicks _)
  · show noEdgeWS
      (jsTrimList (removeTicks (removeFences (jsTrimList content.data)))) = true
    exact noEdgeWS_jsTrimList _

/-- Witness for `c9_no_fence_no_edge_ws` at the stubbed upstream
call. -/
theorem c9_no_fence_no_edge_ws_witness :
    translateToCypher llmOkStub "q" = .ok (cleanCypher "MATCH (c:Case) RETURN c") ∧
    hasTriple (cleanCypher "MATCH (c:Case) RETURN c").data = false ∧
    noEdgeWS (cleanCypher "MATCH (c:Case) RETURN c").data = true :=
  c9_no_fence_no_edge_ws llmOkStub "q" "MATCH (c:Case) RETURN c" rfl
